import Mathlib

/-!
# Verification of `python_rucaptcha/image_captcha.py`

A shallow embedding of the `ImageCaptcha` class: its input-resolution and
payload-normalization pipeline, the dual blocking / non-blocking handler
entry points, the local-cache lifecycle (`_image_const_saver`, `__del__`),
and the base64 payload encoding it delegates to.

Bytes are modelled as `List Nat` with values `< 256`.  The external
collaborators (the HTTP fetch, the submission/result engine, the local
file reader, the uuid generator) are passed to the handlers as explicit
parameters, mirroring the fact that the class consumes them through
fixed call points.  The filesystem is an explicit state record.
-/

/-! ## Base64 (modelled from Python's `base64.b64encode` / `b64decode`, RFC 4648) -/

/-- The standard base64 alphabet, index `n` holds the character for sextet `n`. -/
def b64Chars : List Char :=
  ['A','B','C','D','E','F','G','H','I','J','K','L','M','N','O','P','Q','R','S','T','U','V','W','X','Y','Z',
   'a','b','c','d','e','f','g','h','i','j','k','l','m','n','o','p','q','r','s','t','u','v','w','x','y','z',
   '0','1','2','3','4','5','6','7','8','9','+','/']

/-- The alphabet character for a sextet value. -/
def sextetChar (n : Nat) : Char := b64Chars.getD n '#'

/-- Index of a character in a character list, `none` when absent. -/
def charIdx : List Char → Char → Option Nat
  | [], _ => none
  | a :: as, c => if a = c then some 0 else (charIdx as c).map (· + 1)

/-- Base64-encode a byte list: 3 bytes become 4 alphabet characters, a
final group of 1 or 2 bytes is padded with the `=` character, exactly as
`base64.b64encode` does. -/
def b64encodeList : List Nat → List Char
  | [] => []
  | [a] => [sextetChar (a / 4), sextetChar (a % 4 * 16), '=', '=']
  | [a, b] => [sextetChar (a / 4), sextetChar (a % 4 * 16 + b / 16), sextetChar (b % 16 * 4), '=']
  | a :: b :: c :: rest =>
      sextetChar (a / 4) :: sextetChar (a % 4 * 16 + b / 16) ::
        sextetChar (b % 16 * 4 + c / 64) :: sextetChar (c % 64) :: b64encodeList rest

/-- Decode one full (non-padded) base64 quartet into three bytes. -/
def decodeQuad (w x y z : Char) : Option (List Nat) :=
  match charIdx b64Chars w, charIdx b64Chars x, charIdx b64Chars y, charIdx b64Chars z with
  | some sw, some sx, some sy, some sz =>
      some [sw * 4 + sx / 16, sx % 16 * 16 + sy / 4, sy % 4 * 64 + sz]
  | _, _, _, _ => none

/-- Decode the final base64 quartet, which may carry `=` padding. -/
def decodeLast (w x y z : Char) : Option (List Nat) :=
  if z = '=' then
    if y = '=' then
      match charIdx b64Chars w, charIdx b64Chars x with
      | some sw, some sx => some [sw * 4 + sx / 16]
      | _, _ => none
    else
      match charIdx b64Chars w, charIdx b64Chars x, charIdx b64Chars y with
      | some sw, some sx, some sy => some [sw * 4 + sx / 16, sx % 16 * 16 + sy / 4]
      | _, _, _ => none
  else decodeQuad w x y z

/-- Base64-decode a character list, 4 characters at a time; only the final
quartet may carry padding. -/
def b64decodeList : List Char → Option (List Nat)
  | [] => some []
  | [w, x, y, z] => decodeLast w x y z
  | w :: x :: y :: z :: r :: rest =>
      match decodeQuad w x y z, b64decodeList (r :: rest) with
      | some t, some u => some (t ++ u)
      | _, _ => none
  | _ => none

/-- Base64 text of a byte list, as the `str` produced by
`base64.b64encode(content).decode("utf-8")`. -/
def b64encodeStr (bs : List Nat) : String := String.mk (b64encodeList bs)

/-- Base64 decoding of a base64 text. -/
def b64decodeStr (s : String) : Option (List Nat) := b64decodeList s.data

/-! ## Data model -/

/-- A value in a serialized result mapping (pydantic `.dict()` output). -/
inductive JVal where
  | jnull
  | jbool (b : Bool)
  | jstr (s : String)
deriving DecidableEq, Repr

/-- Serialize an optional string field the way pydantic does: `None` maps to null. -/
def optStrJ : Option String → JVal
  | none => JVal.jnull
  | some s => JVal.jstr s

/-- Modelled from the spec: the Result Container (`core/serializer.py` is not
under `src/`) holds `captchaSolve?`, `taskId?`, `error : Bool`, `errorBody?`;
the optional fields of a freshly constructed container are unset.  Field names
and order follow the docstring examples in `image_captcha.py`. -/
structure ResultContainer where
  captchaSolve : Option String
  taskId : Option String
  error : Bool
  errorBody : Option String
deriving DecidableEq, Repr

/-- `result.dict()`: every field appears, unset optional fields as explicit nulls. -/
def ResultContainer.dict (r : ResultContainer) : List (String × JVal) :=
  [("captchaSolve", optStrJ r.captchaSolve), ("taskId", optStrJ r.taskId),
   ("error", JVal.jbool r.error), ("errorBody", optStrJ r.errorBody)]

/-- `result.dict(exclude_none=True)`: fields holding `None` are omitted. -/
def ResultContainer.dictExcludeNone (r : ResultContainer) : List (String × JVal) :=
  r.dict.filter (fun kv => !(kv.2 == JVal.jnull))

/-- Modelled from the spec: a freshly constructed Result Container with all
optional fields unset and `error = False`. -/
def initResult : ResultContainer :=
  { captchaSolve := none, taskId := none, error := false, errorBody := none }

/-- A filesystem state: the set of existing directories and the files with
their byte contents. -/
structure FS where
  dirs : List String
  files : List (String × List Nat)
deriving DecidableEq, Repr

/-- `Path(d).mkdir(parents=True, exist_ok=True)`: create the directory, no
error when it already exists. -/
def FS.mkdirP (fs : FS) (d : String) : FS :=
  if d ∈ fs.dirs then fs else { fs with dirs := d :: fs.dirs }

/-- `open(p, "wb").write(content)`: store the bytes at path `p`. -/
def FS.writeFile (fs : FS) (p : String) (content : List Nat) : FS :=
  { fs with files := (p, content) :: fs.files }

/-- `p` is a leading segment of `s` (character lists). -/
def leadsOf : List Char → List Char → Bool
  | [], _ => true
  | _ :: _, [] => false
  | p :: ps, s :: ss => p == s && leadsOf ps ss

/-- Path `q` lies strictly under directory `p`. -/
def underDir (p q : String) : Bool := leadsOf (p ++ "/").data q.data

/-- `shutil.rmtree(p)`: recursively remove the directory tree at `p`; raises
`FileNotFoundError` when `p` does not exist (no `ignore_errors`). -/
def rmtree (fs : FS) (p : String) : Except String FS :=
  if p ∈ fs.dirs then
    Except.ok { dirs := fs.dirs.filter (fun d => !(d == p || underDir p d)),
                files := fs.files.filter (fun f => !underDir p f.1) }
  else Except.error ("FileNotFoundError: " ++ p)

/-- `SaveFormatsEnm.TEMP.value` (the enums module is not under `src/`; the
values are named in the constructor docstring: temporary file mode). -/
def SaveFormatsTEMP : String := "temp"

/-- `SaveFormatsEnm.CONST.value`: persistent image-folder mode. -/
def SaveFormatsCONST : String := "const"

/-- The configuration fields `ImageCaptcha.__init__` stores on the instance. -/
structure ImageCaptcha where
  save_format : String := SaveFormatsTEMP
  img_clearing : Bool := true
  img_path : String := "PythonRuCaptchaImages"
deriving DecidableEq, Repr

/-- `ImageCaptcha.NO_CAPTCHA_ERR`. -/
def NO_CAPTCHA_ERR : String := "You did not send any file, local link or URL."

/-- The mutable per-call state of the instance: the shared outgoing payload
mapping `post_payload`, the `result` container, the filesystem, and the
`_image_name` attribute set by the image saver. -/
structure HState where
  post_payload : List (String × String)
  result : ResultContainer
  fs : FS
  image_name : Option String
deriving DecidableEq, Repr

/-- Python `dict.update({k: v})`: replace the value at `k` in place, or
append the binding when `k` is absent. -/
def updateKey : List (String × String) → String → String → List (String × String)
  | [], k, v => [(k, v)]
  | (k', v') :: rest, k, v =>
      if k' = k then (k, v) :: rest else (k', v') :: updateKey rest k v

/-- Python `dict[k]` lookup as an option. -/
def lookupKey : List (String × String) → String → Option String
  | [], _ => none
  | (k', v) :: rest, k => if k' = k then some v else lookupKey rest k

/-- Python truthiness of an optional string: `None` and `""` are falsy. -/
def truthyStr : Option String → Bool
  | none => false
  | some s => !(s == "")

/-- Python truthiness of optional bytes: `None` and `b""` are falsy. -/
def truthyBytes : Option (List Nat) → Bool
  | none => false
  | some bs => !bs.isEmpty

/-- The generated image file name `f"im-{uuid.uuid4()}.png"`, with the fresh
uuid token passed in explicitly. -/
def imageName (tok : String) : String := "im-" ++ tok ++ ".png"

/-- `ImageCaptcha._image_const_saver(content, img_path)`: create the folder
(parents, exist_ok), generate the image name from a fresh uuid token, write
the bytes in binary mode under the folder. -/
def image_const_saver (st : HState) (content : List Nat) (img_path : String)
    (tok : String) : HState :=
  let fs := st.fs.mkdirP img_path
  let name := imageName tok
  { st with fs := fs.writeFile (img_path ++ "/" ++ name) content,
            image_name := some name }

/-- `ImageCaptcha._local_image_captcha(captcha_file)`: read the local file's
bytes; the disk is passed in as the `fileContent` collaborator. -/
def local_image_captcha (fileContent : String → List Nat) (captcha_file : String) : List Nat :=
  fileContent captcha_file

/-- The outcome of one handler call: the returned dict, the final instance
state, and whether the external submission collaborator was invoked. -/
structure HandlerOut where
  ret : List (String × JVal)
  st : HState
  submitted : Bool
deriving DecidableEq, Repr

/-- `ImageCaptcha.captcha_handler` (the blocking entry point).  The external
collaborators appear as parameters: `fileContent` is the local disk,
`fetch` is the outcome of `self.url_open(url=captcha_link, **kwargs).content`,
`uuidTok` is the fresh uuid drawn by the saver, and `processing` is
`self._processing_response(**kwargs)` as a function of the payload it reads. -/
def ImageCaptcha.captcha_handler (self : ImageCaptcha) (st : HState)
    (captcha_link captcha_file : Option String) (captcha_base64 : Option (List Nat))
    (fileContent : String → List Nat) (fetch : Except String (List Nat)) (uuidTok : String)
    (processing : List (String × String) → List (String × JVal)) : HandlerOut :=
  if truthyStr captcha_file then
    let body := b64encodeStr (local_image_captcha fileContent (captcha_file.getD ""))
    let st := { st with post_payload := updateKey st.post_payload "body" body }
    { ret := processing st.post_payload, st := st, submitted := true }
  else if truthyBytes captcha_base64 then
    let body := b64encodeStr (captcha_base64.getD [])
    let st := { st with post_payload := updateKey st.post_payload "body" body }
    { ret := processing st.post_payload, st := st, submitted := true }
  else if truthyStr captcha_link then
    match fetch with
    | Except.error err =>
        let r := { st.result with error := true, errorBody := some err }
        { ret := r.dictExcludeNone, st := { st with result := r }, submitted := false }
    | Except.ok content =>
        let st := if self.save_format == SaveFormatsCONST
          then image_const_saver st content self.img_path uuidTok else st
        let body := b64encodeStr content
        let st := { st with post_payload := updateKey st.post_payload "body" body }
        { ret := processing st.post_payload, st := st, submitted := true }
  else
    let r := { st.result with error := true, errorBody := some NO_CAPTCHA_ERR }
    { ret := r.dict, st := { st with result := r }, submitted := false }

/-- `ImageCaptcha.aio_captcha_handler` (the non-blocking entry point); same
pipeline, with `fetch` standing for `await self.aio_url_read(...)` and
`processing` for `await self._aio_processing_response()`. -/
def ImageCaptcha.aio_captcha_handler (self : ImageCaptcha) (st : HState)
    (captcha_link captcha_file : Option String) (captcha_base64 : Option (List Nat))
    (fileContent : String → List Nat) (fetch : Except String (List Nat)) (uuidTok : String)
    (processing : List (String × String) → List (String × JVal)) : HandlerOut :=
  if truthyStr captcha_file then
    let body := b64encodeStr (local_image_captcha fileContent (captcha_file.getD ""))
    let st := { st with post_payload := updateKey st.post_payload "body" body }
    { ret := processing st.post_payload, st := st, submitted := true }
  else if truthyBytes captcha_base64 then
    let body := b64encodeStr (captcha_base64.getD [])
    let st := { st with post_payload := updateKey st.post_payload "body" body }
    { ret := processing st.post_payload, st := st, submitted := true }
  else if truthyStr captcha_link then
    match fetch with
    | Except.error err =>
        let r := { st.result with error := true, errorBody := some err }
        { ret := r.dictExcludeNone, st := { st with result := r }, submitted := false }
    | Except.ok content =>
        let st := if self.save_format == SaveFormatsCONST
          then image_const_saver st content self.img_path uuidTok else st
        let body := b64encodeStr content
        let st := { st with post_payload := updateKey st.post_payload "body" body }
        { ret := processing st.post_payload, st := st, submitted := true }
  else
    let r := { st.result with error := true, errorBody := some NO_CAPTCHA_ERR }
    { ret := r.dict, st := { st with result := r }, submitted := false }

/-- `ImageCaptcha.__del__`: remove the image folder tree when the instance
was configured with persistent mode and clearing enabled; otherwise no
filesystem operation is performed. -/
def ImageCaptcha.teardown (self : ImageCaptcha) (fs : FS) : Except String FS :=
  if self.save_format == SaveFormatsCONST && self.img_clearing then
    rmtree fs self.img_path
  else Except.ok fs

/-! ## Concrete instances used by witnesses -/

/-- A default-configured instance (temporary mode) for concrete checks. -/
def cfgW : ImageCaptcha := {}

/-- A persistent-mode, clearing-enabled instance for concrete checks. -/
def cfgCW : ImageCaptcha :=
  { save_format := SaveFormatsCONST, img_clearing := true, img_path := "imgs" }

/-- An empty filesystem. -/
def fsW : FS := { dirs := [], files := [] }

/-- A filesystem holding just the storage directory of `cfgCW`. -/
def fsDW : FS := { dirs := ["imgs", "PythonRuCaptchaImages"], files := [] }

/-- A fresh instance state: empty payload, fresh result container, empty filesystem. -/
def stW : HState :=
  { post_payload := [], result := initResult, fs := fsW, image_name := none }

/-- A trivial disk collaborator. -/
def fcW : String → List Nat := fun _ => [1, 2, 3]

/-- A trivial submission collaborator response. -/
def prW : List (String × String) → List (String × JVal) :=
  fun _ => [("ok", JVal.jbool true)]

/-! ## Theorems -/

theorem charIdx_sextetChar : ∀ n, n < 64 → charIdx b64Chars (sextetChar n) = some n := by
  decide

theorem sextetChar_ne_pad : ∀ n, n < 64 → sextetChar n ≠ '=' := by
  decide

theorem b64encodeList_cons (d : Nat) (ds : List Nat) :
    ∃ t, b64encodeList (d :: ds) = sextetChar (d / 4) :: t := by
  match ds with
  | [] => exact ⟨_, rfl⟩
  | [e] => exact ⟨_, rfl⟩
  | e :: f :: fs => exact ⟨_, rfl⟩

/-- Decoding inverts encoding on any list of genuine bytes. -/
theorem b64_roundtrip (bs : List Nat) (hb : ∀ x ∈ bs, x < 256) :
    b64decodeList (b64encodeList bs) = some bs := by
  induction bs using b64encodeList.induct with
  | case1 => rfl
  | case2 a =>
      have ha : a < 256 := hb a (by simp)
      have h1 : a / 4 < 64 := by omega
      have h2 : a % 4 * 16 < 64 := by omega
      simp [b64encodeList, b64decodeList, decodeLast,
        charIdx_sextetChar _ h1, charIdx_sextetChar _ h2]
      omega
  | case3 a b =>
      have ha : a < 256 := hb a (by simp)
      have hb2 : b < 256 := hb b (by simp)
      have h1 : a / 4 < 64 := by omega
      have h2 : a % 4 * 16 + b / 16 < 64 := by omega
      have h3 : b % 16 * 4 < 64 := by omega
      simp [b64encodeList, b64decodeList, decodeLast, sextetChar_ne_pad _ h3,
        charIdx_sextetChar _ h1, charIdx_sextetChar _ h2, charIdx_sextetChar _ h3]
      omega
  | case4 a b c rest ih =>
      have ha : a < 256 := hb a (by simp)
      have hb2 : b < 256 := hb b (by simp)
      have hc : c < 256 := hb c (by simp)
      have hrest : ∀ x ∈ rest, x < 256 := fun x hx => hb x (by simp [hx])
      have h1 : a / 4 < 64 := by omega
      have h2 : a % 4 * 16 + b / 16 < 64 := by omega
      have h3 : b % 16 * 4 + c / 64 < 64 := by omega
      have h4 : c % 64 < 64 := by omega
      have e1 : a / 4 * 4 + (a % 4 * 16 + b / 16) / 16 = a := by omega
      have e2 : (a % 4 * 16 + b / 16) % 16 * 16 + (b % 16 * 4 + c / 64) / 4 = b := by omega
      have e3 : (b % 16 * 4 + c / 64) % 4 * 64 + c % 64 = c := by omega
      cases rest with
      | nil =>
          simp [b64encodeList, b64decodeList, decodeLast, decodeQuad,
            sextetChar_ne_pad _ h4, charIdx_sextetChar _ h1, charIdx_sextetChar _ h2,
            charIdx_sextetChar _ h3, charIdx_sextetChar _ h4, e1, e2, e3]
      | cons d ds =>
          obtain ⟨t, ht⟩ := b64encodeList_cons d ds
          have hdec := ih hrest
          rw [ht] at hdec
          simp [b64encodeList, ht, b64decodeList, decodeQuad, hdec,
            charIdx_sextetChar _ h1, charIdx_sextetChar _ h2,
            charIdx_sextetChar _ h3, charIdx_sextetChar _ h4, e1, e2, e3]

/-- Round-trip at the string level. -/
theorem b64Str_roundtrip (bs : List Nat) (hb : ∀ x ∈ bs, x < 256) :
    b64decodeStr (b64encodeStr bs) = some bs :=
  b64_roundtrip bs hb

theorem jbool_beq_jnull (b : Bool) : (JVal.jbool b == JVal.jnull) = false := by
  simp [beq_eq_false_iff_ne]

theorem jstr_beq_jnull (s : String) : (JVal.jstr s == JVal.jnull) = false := by
  simp [beq_eq_false_iff_ne]

theorem truthyStr_none : truthyStr none = false := rfl

theorem truthyBytes_none : truthyBytes none = false := rfl

theorem lookupKey_updateKey (p : List (String × String)) (k v : String) :
    lookupKey (updateKey p k v) k = some v := by
  induction p with
  | nil => simp [updateKey, lookupKey]
  | cons kv rest ih =>
      obtain ⟨k', v'⟩ := kv
      by_cases h : k' = k <;> simp [updateKey, lookupKey, h, ih]

theorem imageName_injective (t1 t2 : String) (h : t1 ≠ t2) :
    imageName t1 ≠ imageName t2 := by
  intro he
  apply h
  have hd : (imageName t1).data = (imageName t2).data := by rw [he]
  simp only [imageName, String.data_append] at hd
  have h2 := List.append_cancel_right hd
  have h3 := List.append_cancel_left h2
  cases t1
  cases t2
  exact congrArg String.mk h3

/-- C1: for identical invocation inputs (URL, file path, raw bytes, passthrough
collaborator parameters) and identical remote responses from the fetch and
submission collaborators, the blocking `captcha_handler` and the non-blocking
`aio_captcha_handler` produce identical outcomes: the same returned result
mapping, the same final state, and the same submission behaviour. -/
theorem C1_dual_mode_parity (self : ImageCaptcha) (st : HState)
    (captcha_link captcha_file : Option String) (captcha_base64 : Option (List Nat))
    (fileContent : String → List Nat) (fetch : Except String (List Nat)) (uuidTok : String)
    (processing : List (String × String) → List (String × JVal)) :
    self.captcha_handler st captcha_link captcha_file captcha_base64
        fileContent fetch uuidTok processing
      = self.aio_captcha_handler st captcha_link captcha_file captcha_base64
          fileContent fetch uuidTok processing := rfl

/-- C2: source selection follows the fixed precedence file path, then raw
bytes, then URL, and depends only on which parameters are non-empty: with a
non-empty file path the raw bytes and the URL are ignored (the outcome equals
that of a call passing only the file path), and with an empty/absent file path
but non-empty raw bytes the URL is ignored — in both handlers. -/
theorem C2_precedence (self : ImageCaptcha) (st : HState)
    (captcha_link captcha_file : Option String) (captcha_base64 : Option (List Nat))
    (fileContent : String → List Nat) (fetch : Except String (List Nat)) (uuidTok : String)
    (processing : List (String × String) → List (String × JVal)) :
    (truthyStr captcha_file = true →
      self.captcha_handler st captcha_link captcha_file captcha_base64
          fileContent fetch uuidTok processing
        = self.captcha_handler st none captcha_file none fileContent fetch uuidTok processing
      ∧ self.aio_captcha_handler st captcha_link captcha_file captcha_base64
          fileContent fetch uuidTok processing
        = self.aio_captcha_handler st none captcha_file none fileContent fetch uuidTok processing)
    ∧ (truthyStr captcha_file = false → truthyBytes captcha_base64 = true →
      self.captcha_handler st captcha_link captcha_file captcha_base64
          fileContent fetch uuidTok processing
        = self.captcha_handler st none none captcha_base64 fileContent fetch uuidTok processing
      ∧ self.aio_captcha_handler st captcha_link captcha_file captcha_base64
          fileContent fetch uuidTok processing
        = self.aio_captcha_handler st none none captcha_base64 fileContent fetch uuidTok
            processing) := by
  constructor
  · intro hf
    constructor <;>
      simp [ImageCaptcha.captcha_handler, ImageCaptcha.aio_captcha_handler, hf]
  · intro hf hb
    constructor <;>
      simp [ImageCaptcha.captcha_handler, ImageCaptcha.aio_captcha_handler, hf, hb,
        truthyStr_none, truthyBytes_none]

/-- C2 witness: concrete calls with all three inputs, and with bytes plus URL. -/
theorem C2_precedence_witness :
    (cfgW.captcha_handler stW (some "http://u") (some "f.png") (some [1, 2]) fcW
        (Except.ok [7]) "t" prW
      = cfgW.captcha_handler stW none (some "f.png") none fcW (Except.ok [7]) "t" prW)
    ∧ (cfgW.captcha_handler stW (some "http://u") none (some [1, 2]) fcW
        (Except.ok [7]) "t" prW
      = cfgW.captcha_handler stW none none (some [1, 2]) fcW (Except.ok [7]) "t" prW) :=
  ⟨((C2_precedence cfgW stW (some "http://u") (some "f.png") (some [1, 2]) fcW
      (Except.ok [7]) "t" prW).1 (by decide)).1,
   ((C2_precedence cfgW stW (some "http://u") none (some [1, 2]) fcW
      (Except.ok [7]) "t" prW).2 (by decide) (by decide)).1⟩

/-- C3: with no input supplied (file path, raw bytes and URL all empty or
absent), both handlers return the serialized result with `error = true` and
`errorBody` the fixed message `NO_CAPTCHA_ERR`, leave the payload mapping,
the filesystem and the rest of the state untouched, and never invoke the
submission collaborator; the outcome is the same for every fetch and disk
collaborator, so no network or disk access influences it. -/
theorem C3_zero_input (self : ImageCaptcha) (st : HState)
    (captcha_link captcha_file : Option String) (captcha_base64 : Option (List Nat))
    (fileContent : String → List Nat) (fetch : Except String (List Nat)) (uuidTok : String)
    (processing : List (String × String) → List (String × JVal))
    (hf : truthyStr captcha_file = false) (hb : truthyBytes captcha_base64 = false)
    (hl : truthyStr captcha_link = false) :
    self.captcha_handler st captcha_link captcha_file captcha_base64
        fileContent fetch uuidTok processing
      = { ret := ResultContainer.dict
            { st.result with error := true, errorBody := some NO_CAPTCHA_ERR },
          st := { st with result :=
            { st.result with error := true, errorBody := some NO_CAPTCHA_ERR } },
          submitted := false }
    ∧ self.aio_captcha_handler st captcha_link captcha_file captcha_base64
        fileContent fetch uuidTok processing
      = { ret := ResultContainer.dict
            { st.result with error := true, errorBody := some NO_CAPTCHA_ERR },
          st := { st with result :=
            { st.result with error := true, errorBody := some NO_CAPTCHA_ERR } },
          submitted := false } := by
  constructor <;>
    simp [ImageCaptcha.captcha_handler, ImageCaptcha.aio_captcha_handler, hf, hb, hl]

/-- C3 witness: the concrete no-argument call. -/
theorem C3_zero_input_witness :
    cfgW.captcha_handler stW none none none fcW (Except.ok [7]) "t" prW
      = { ret := ResultContainer.dict
            { stW.result with error := true, errorBody := some NO_CAPTCHA_ERR },
          st := { stW with result :=
            { stW.result with error := true, errorBody := some NO_CAPTCHA_ERR } },
          submitted := false }
    ∧ cfgW.aio_captcha_handler stW none none none fcW (Except.ok [7]) "t" prW
      = { ret := ResultContainer.dict
            { stW.result with error := true, errorBody := some NO_CAPTCHA_ERR },
          st := { stW with result :=
            { stW.result with error := true, errorBody := some NO_CAPTCHA_ERR } },
          submitted := false } :=
  C3_zero_input cfgW stW none none none fcW (Except.ok [7]) "t" prW rfl rfl rfl

/-- C4: on a remote-URL invocation whose fetch collaborator fails, both
handlers catch the failure and return normally (no fault propagates) with the
serialized result carrying `error = true` and `errorBody` the captured
failure; the payload mapping and the filesystem are untouched — in particular
no disk write happens even when `self` is configured with persistent storage —
and the submission collaborator is never invoked. -/
theorem C4_fetch_failure (self : ImageCaptcha) (st : HState)
    (captcha_link captcha_file : Option String) (captcha_base64 : Option (List Nat))
    (fileContent : String → List Nat) (err uuidTok : String)
    (processing : List (String × String) → List (String × JVal))
    (hf : truthyStr captcha_file = false) (hb : truthyBytes captcha_base64 = false)
    (hl : truthyStr captcha_link = true) :
    self.captcha_handler st captcha_link captcha_file captcha_base64
        fileContent (Except.error err) uuidTok processing
      = { ret := ResultContainer.dictExcludeNone
            { st.result with error := true, errorBody := some err },
          st := { st with result :=
            { st.result with error := true, errorBody := some err } },
          submitted := false }
    ∧ self.aio_captcha_handler st captcha_link captcha_file captcha_base64
        fileContent (Except.error err) uuidTok processing
      = { ret := ResultContainer.dictExcludeNone
            { st.result with error := true, errorBody := some err },
          st := { st with result :=
            { st.result with error := true, errorBody := some err } },
          submitted := false } := by
  constructor <;>
    simp [ImageCaptcha.captcha_handler, ImageCaptcha.aio_captcha_handler, hf, hb, hl]

/-- C4 witness: a concrete failing-fetch call on a persistent-mode instance. -/
theorem C4_fetch_failure_witness :
    cfgCW.captcha_handler stW (some "http://bad.invalid") none none fcW
        (Except.error "ConnectionError") "t" prW
      = { ret := ResultContainer.dictExcludeNone
            { stW.result with error := true, errorBody := some "ConnectionError" },
          st := { stW with result :=
            { stW.result with error := true, errorBody := some "ConnectionError" } },
          submitted := false }
    ∧ cfgCW.aio_captcha_handler stW (some "http://bad.invalid") none none fcW
        (Except.error "ConnectionError") "t" prW
      = { ret := ResultContainer.dictExcludeNone
            { stW.result with error := true, errorBody := some "ConnectionError" },
          st := { stW with result :=
            { stW.result with error := true, errorBody := some "ConnectionError" } },
          submitted := false } :=
  C4_fetch_failure cfgCW stW (some "http://bad.invalid") none none fcW
    "ConnectionError" "t" prW rfl rfl (by decide)

/-- C5: on a raw-bytes invocation (empty file path, non-empty bytes), both
handlers store under the payload key `"body"` exactly the standard base64
text of the supplied bytes, and base64-decoding that stored text reproduces
the original bytes. -/
theorem C5_base64_payload (self : ImageCaptcha) (st : HState)
    (captcha_link captcha_file : Option String) (bs : List Nat)
    (fileContent : String → List Nat) (fetch : Except String (List Nat)) (uuidTok : String)
    (processing : List (String × String) → List (String × JVal))
    (hf : truthyStr captcha_file = false) (hne : bs ≠ [])
    (hbytes : ∀ x ∈ bs, x < 256) :
    lookupKey (self.captcha_handler st captcha_link captcha_file (some bs)
        fileContent fetch uuidTok processing).st.post_payload "body"
      = some (b64encodeStr bs)
    ∧ lookupKey (self.aio_captcha_handler st captcha_link captcha_file (some bs)
        fileContent fetch uuidTok processing).st.post_payload "body"
      = some (b64encodeStr bs)
    ∧ b64decodeStr (b64encodeStr bs) = some bs := by
  have hb : truthyBytes (some bs) = true := by
    cases bs with
    | nil => exact absurd rfl hne
    | cons x xs => rfl
  refine ⟨?_, ?_, b64Str_roundtrip bs hbytes⟩ <;>
    simp [ImageCaptcha.captcha_handler, ImageCaptcha.aio_captcha_handler, hf, hb,
      lookupKey_updateKey]

/-- C5 witness: concrete PNG-header bytes. -/
theorem C5_base64_payload_witness :
    lookupKey (cfgW.captcha_handler stW none none (some [137, 80, 78, 71])
        fcW (Except.ok [7]) "t" prW).st.post_payload "body"
      = some (b64encodeStr [137, 80, 78, 71])
    ∧ lookupKey (cfgW.aio_captcha_handler stW none none (some [137, 80, 78, 71])
        fcW (Except.ok [7]) "t" prW).st.post_payload "body"
      = some (b64encodeStr [137, 80, 78, 71])
    ∧ b64decodeStr (b64encodeStr [137, 80, 78, 71]) = some [137, 80, 78, 71] :=
  C5_base64_payload cfgW stW none none [137, 80, 78, 71] fcW (Except.ok [7]) "t" prW
    rfl (by decide) (by decide)

/-- C6 is false as stated: at the concrete zero-input call the blocking
handler's returned mapping carries the never-populated `captchaSolve` field
as an explicit null, so the zero-input fast-fail path does not use the
omit-unset-fields serialization option. -/
theorem C6_counterexample :
    ("captchaSolve", JVal.jnull)
      ∈ (cfgW.captcha_handler stW none none none fcW (Except.ok [7]) "t" prW).ret := by
  decide

/-- C6 amended: the omit-unset-fields serialization option is used in the
fetch-failure error path only; the zero-input error result instead includes
the fields it never populates as explicit nulls.  Starting from a fresh
result container, the fetch-failure return omits the unset `captchaSolve`
and `taskId` fields while the zero-input return lists them as nulls — in
both handlers. -/
theorem C6_serialization_paths (self : ImageCaptcha) (st : HState)
    (captcha_link captcha_file : Option String) (captcha_base64 : Option (List Nat))
    (fileContent : String → List Nat) (err uuidTok : String)
    (processing : List (String × String) → List (String × JVal))
    (hres : st.result = initResult)
    (hf : truthyStr captcha_file = false) (hb : truthyBytes captcha_base64 = false)
    (hl : truthyStr captcha_link = true) :
    (self.captcha_handler st captcha_link captcha_file captcha_base64
        fileContent (Except.error err) uuidTok processing).ret
      = [("error", JVal.jbool true), ("errorBody", JVal.jstr err)]
    ∧ (self.aio_captcha_handler st captcha_link captcha_file captcha_base64
        fileContent (Except.error err) uuidTok processing).ret
      = [("error", JVal.jbool true), ("errorBody", JVal.jstr err)]
    ∧ (self.captcha_handler st none none none
        fileContent (Except.error err) uuidTok processing).ret
      = [("captchaSolve", JVal.jnull), ("taskId", JVal.jnull),
         ("error", JVal.jbool true), ("errorBody", JVal.jstr NO_CAPTCHA_ERR)]
    ∧ (self.aio_captcha_handler st none none none
        fileContent (Except.error err) uuidTok processing).ret
      = [("captchaSolve", JVal.jnull), ("taskId", JVal.jnull),
         ("error", JVal.jbool true), ("errorBody", JVal.jstr NO_CAPTCHA_ERR)] := by
  refine ⟨?_, ?_, ?_, ?_⟩ <;>
    simp [ImageCaptcha.captcha_handler, ImageCaptcha.aio_captcha_handler, hf, hb, hl,
      hres, initResult, ResultContainer.dict, ResultContainer.dictExcludeNone, optStrJ,
      truthyStr_none, truthyBytes_none, List.filter, jbool_beq_jnull, jstr_beq_jnull]

/-- C6 amended witness: concrete fetch-failure and zero-input calls. -/
theorem C6_serialization_paths_witness :
    (cfgW.captcha_handler stW (some "http://u") none none fcW
        (Except.error "boom") "t" prW).ret
      = [("error", JVal.jbool true), ("errorBody", JVal.jstr "boom")]
    ∧ (cfgW.aio_captcha_handler stW (some "http://u") none none fcW
        (Except.error "boom") "t" prW).ret
      = [("error", JVal.jbool true), ("errorBody", JVal.jstr "boom")]
    ∧ (cfgW.captcha_handler stW none none none fcW
        (Except.error "boom") "t" prW).ret
      = [("captchaSolve", JVal.jnull), ("taskId", JVal.jnull),
         ("error", JVal.jbool true), ("errorBody", JVal.jstr NO_CAPTCHA_ERR)]
    ∧ (cfgW.aio_captcha_handler stW none none none fcW
        (Except.error "boom") "t" prW).ret
      = [("captchaSolve", JVal.jnull), ("taskId", JVal.jnull),
         ("error", JVal.jbool true), ("errorBody", JVal.jstr NO_CAPTCHA_ERR)] :=
  C6_serialization_paths cfgW stW (some "http://u") none none fcW "boom" "t" prW
    rfl rfl rfl (by decide)

/-- C7: the cache manager's contract.  On the remote-URL path under persistent
mode the saver creates the storage directory (idempotently, no error when it
already exists), writes the fetched bytes in binary to
`img_path/im-<token>.png`, and distinct fresh tokens yield distinct generated
filenames; both handlers update the filesystem exactly as the saver does on
that path, and the file-path and raw-bytes branches never touch the
filesystem. -/
theorem C7_cache_lifecycle (self : ImageCaptcha) (st st1 st2 : HState)
    (content : List Nat) (p t1 t2 : String)
    (captcha_link file1 : Option String) (b64 : Option (List Nat))
    (fileContent : String → List Nat) (fetch1 : Except String (List Nat))
    (uuidTok : String) (processing : List (String × String) → List (String × JVal))
    (h12 : t1 ≠ t2) (hconst : self.save_format = SaveFormatsCONST)
    (hl : truthyStr captcha_link = true) (hf : truthyStr file1 = false)
    (hb : truthyBytes b64 = false) :
    p ∈ (image_const_saver st content p t1).fs.dirs
    ∧ (p ++ "/" ++ imageName t1, content) ∈ (image_const_saver st content p t1).fs.files
    ∧ imageName t1 ≠ imageName t2
    ∧ (self.captcha_handler st1 captcha_link file1 b64 fileContent (Except.ok content)
        uuidTok processing).st.fs
      = (image_const_saver st1 content self.img_path uuidTok).fs
    ∧ (self.aio_captcha_handler st1 captcha_link file1 b64 fileContent (Except.ok content)
        uuidTok processing).st.fs
      = (image_const_saver st1 content self.img_path uuidTok).fs
    ∧ (∀ file2 : Option String, truthyStr file2 = true →
        (self.captcha_handler st2 captcha_link file2 b64 fileContent fetch1 uuidTok
          processing).st.fs = st2.fs
        ∧ (self.aio_captcha_handler st2 captcha_link file2 b64 fileContent fetch1 uuidTok
          processing).st.fs = st2.fs)
    ∧ (∀ bs : List Nat, bs ≠ [] →
        (self.captcha_handler st2 captcha_link none (some bs) fileContent fetch1 uuidTok
          processing).st.fs = st2.fs
        ∧ (self.aio_captcha_handler st2 captcha_link none (some bs) fileContent fetch1
          uuidTok processing).st.fs = st2.fs) := by
  refine ⟨?_, ?_, imageName_injective t1 t2 h12, ?_, ?_, ?_, ?_⟩
  · by_cases hmem : p ∈ st.fs.dirs <;>
      simp [image_const_saver, FS.writeFile, FS.mkdirP, hmem]
  · simp [image_const_saver, FS.writeFile, FS.mkdirP]
  · simp [ImageCaptcha.captcha_handler, hl, hf, hb, hconst]
  · simp [ImageCaptcha.aio_captcha_handler, hl, hf, hb, hconst]
  · intro file2 hf2
    constructor <;>
      simp [ImageCaptcha.captcha_handler, ImageCaptcha.aio_captcha_handler, hf2]
  · intro bs hbs
    have hb2 : truthyBytes (some bs) = true := by
      cases bs with
      | nil => exact absurd rfl hbs
      | cons x xs => rfl
    constructor <;>
      simp [ImageCaptcha.captcha_handler, ImageCaptcha.aio_captcha_handler,
        truthyStr_none, hb2]

/-- C7 witness at concrete inputs: distinct tokens, persistent-mode config. -/
theorem C7_cache_lifecycle_witness :
    "imgs" ∈ (image_const_saver stW [7, 8] "imgs" "tok1").fs.dirs
    ∧ ("imgs" ++ "/" ++ imageName "tok1", [7, 8])
      ∈ (image_const_saver stW [7, 8] "imgs" "tok1").fs.files
    ∧ imageName "tok1" ≠ imageName "tok2" :=
  have h := C7_cache_lifecycle cfgCW stW stW stW [7, 8] "imgs" "tok1" "tok2"
    (some "http://u") none none fcW (Except.ok [7, 8]) "t" prW
    (by decide) rfl (by decide) rfl rfl
  ⟨h.1, h.2.1, h.2.2.1⟩

/-- C8: teardown removes the storage directory tree recursively exactly when
the configuration is persistent mode with clearing enabled (given the
directory exists), and performs no filesystem operation at all in temporary
mode or with clearing disabled. -/
theorem C8_teardown (self : ImageCaptcha) (fs : FS) (hdir : self.img_path ∈ fs.dirs) :
    (self.save_format = SaveFormatsCONST → self.img_clearing = true →
      self.teardown fs
        = Except.ok
            { dirs := fs.dirs.filter
                (fun d => !(d == self.img_path || underDir self.img_path d)),
              files := fs.files.filter (fun f => !underDir self.img_path f.1) }
      ∧ self.img_path ∉ fs.dirs.filter
          (fun d => !(d == self.img_path || underDir self.img_path d))
      ∧ (∀ d ∈ fs.dirs.filter
            (fun d => !(d == self.img_path || underDir self.img_path d)),
          underDir self.img_path d = false)
      ∧ (∀ f ∈ fs.files.filter (fun f => !underDir self.img_path f.1),
          underDir self.img_path f.1 = false))
    ∧ (self.save_format ≠ SaveFormatsCONST ∨ self.img_clearing = false →
      self.teardown fs = Except.ok fs) := by
  constructor
  · intro hconst hclear
    refine ⟨?_, ?_, ?_, ?_⟩
    · simp [ImageCaptcha.teardown, hconst, hclear, rmtree, hdir]
    · intro hmem
      rw [List.mem_filter] at hmem
      simp at hmem
    · intro d hd
      rw [List.mem_filter] at hd
      have h2 := hd.2
      simp at h2
      exact h2.2
    · intro f hf2
      rw [List.mem_filter] at hf2
      have h2 := hf2.2
      simpa using h2
  · intro h
    rcases h with h | h
    · have hne : (self.save_format == SaveFormatsCONST) = false := by
        simp [beq_eq_false_iff_ne, h]
      simp [ImageCaptcha.teardown, hne]
    · simp [ImageCaptcha.teardown, h]

/-- C8 witness: a persistent clearing instance removes the directory, a
temporary-mode instance leaves the filesystem untouched. -/
theorem C8_teardown_witness :
    cfgCW.teardown fsDW
      = Except.ok
          { dirs := fsDW.dirs.filter
              (fun d => !(d == cfgCW.img_path || underDir cfgCW.img_path d)),
            files := fsDW.files.filter (fun f => !underDir cfgCW.img_path f.1) }
    ∧ cfgW.teardown fsDW = Except.ok fsDW :=
  ⟨((C8_teardown cfgCW fsDW (by decide)).1 rfl rfl).1,
   (C8_teardown cfgW fsDW (by decide)).2 (Or.inl (by decide))⟩

/-- C9: on an instance configured with persistent mode and clearing enabled
whose storage directory was never created (no successful remote-URL fetch
occurred), teardown calls the recursive removal on a nonexistent path and
raises `FileNotFoundError` instead of completing as a no-op. -/
theorem C9_teardown_missing_dir (self : ImageCaptcha) (fs : FS)
    (hconst : self.save_format = SaveFormatsCONST) (hclear : self.img_clearing = true)
    (hmiss : self.img_path ∉ fs.dirs) :
    self.teardown fs = Except.error ("FileNotFoundError: " ++ self.img_path) := by
  simp [ImageCaptcha.teardown, hconst, hclear, rmtree, hmiss]

/-- C9 witness: fresh persistent instance, empty filesystem. -/
theorem C9_teardown_missing_dir_witness :
    cfgCW.teardown fsW = Except.error ("FileNotFoundError: " ++ cfgCW.img_path) :=
  C9_teardown_missing_dir cfgCW fsW rfl rfl (by decide)

/-- C10: on both locally synthesized error paths — zero input, and remote
fetch failure — either handler returns with the shared outgoing payload
mapping unchanged, so the `"body"` key is never written by the failed call. -/
theorem C10_no_body_write (self : ImageCaptcha) (st : HState)
    (captcha_link captcha_file : Option String) (captcha_base64 : Option (List Nat))
    (fileContent : String → List Nat) (fetch : Except String (List Nat))
    (err uuidTok : String)
    (processing : List (String × String) → List (String × JVal))
    (hf : truthyStr captcha_file = false) (hb : truthyBytes captcha_base64 = false) :
    (truthyStr captcha_link = false →
      (self.captcha_handler st captcha_link captcha_file captcha_base64 fileContent fetch
        uuidTok processing).st.post_payload = st.post_payload
      ∧ (self.aio_captcha_handler st captcha_link captcha_file captcha_base64 fileContent
        fetch uuidTok processing).st.post_payload = st.post_payload)
    ∧ (truthyStr captcha_link = true →
      (self.captcha_handler st captcha_link captcha_file captcha_base64 fileContent
        (Except.error err) uuidTok processing).st.post_payload = st.post_payload
      ∧ (self.aio_captcha_handler st captcha_link captcha_file captcha_base64 fileContent
        (Except.error err) uuidTok processing).st.post_payload = st.post_payload) := by
  constructor
  · intro hl
    constructor <;>
      simp [ImageCaptcha.captcha_handler, ImageCaptcha.aio_captcha_handler, hf, hb, hl]
  · intro hl
    constructor <;>
      simp [ImageCaptcha.captcha_handler, ImageCaptcha.aio_captcha_handler, hf, hb, hl]

/-- C10 witness: concrete zero-input and fetch-failure calls. -/
theorem C10_no_body_write_witness :
    (cfgW.captcha_handler stW none none none fcW (Except.error "boom") "t"
      prW).st.post_payload = stW.post_payload
    ∧ (cfgW.captcha_handler stW (some "http://u") none none fcW (Except.error "boom") "t"
      prW).st.post_payload = stW.post_payload :=
  ⟨((C10_no_body_write cfgW stW none none none fcW (Except.error "boom") "boom" "t" prW
      rfl rfl).1 rfl).1,
   ((C10_no_body_write cfgW stW (some "http://u") none none fcW (Except.error "boom")
      "boom" "t" prW rfl rfl).2 (by decide)).1⟩
